import Mathlib

/-!
Shallow embedding of the optimization core of the Airbnb Boston listing
optimizer (src/data.py, src/optimizer_scipy.py, src/optimizer.py).

Numeric values are modelled as rationals; the square root appearing in
realized-risk computations is modelled over the reals via Real.sqrt.
Vectors are functions `Fin n → ℚ`; matrices are Mathlib matrices over ℚ.
The external SLSQP solver (scipy.optimize.minimize) and the external
Gurobi solve are modelled as parameters: the repository code builds the
problem, invokes the external solver once, and post-processes its result.
-/

namespace AirbnbOpt

open Matrix

/-- np.mean of a vector of length `n` (sum divided by length). -/
def mean (n : ℕ) (v : Fin n → ℚ) : ℚ := (∑ i, v i) / n

/-- src/data.py `compute_expected_revenue`: expected annual revenue per row,
`price * (365 - availability_365)`. The dataframe is modelled by its two
numeric columns. -/
def compute_expected_revenue (n : ℕ) (price availability : Fin n → ℚ) :
    Fin n → ℚ :=
  fun i => price i * (365 - availability i)

/-- src/data.py `compute_revenue_risk`: risk proxy per row,
`availability_365 / 365`. -/
def compute_revenue_risk (n : ℕ) (availability : Fin n → ℚ) : Fin n → ℚ :=
  fun i => availability i / 365

/-- src/data.py `compute_covariance_matrix`: normalizes the revenue vector by
its mean, multiplies entrywise by the risk vector, squares, and places the
result on the diagonal (`np.diag`). There is no guard on the mean. -/
def compute_covariance_matrix (n : ℕ) (expected_revenue risk : Fin n → ℚ) :
    Matrix (Fin n) (Fin n) ℚ :=
  Matrix.diagonal fun i =>
    ((expected_revenue i / mean n expected_revenue) * risk i) ^ 2

/-- Result record of src/data.py `get_portfolio_statistics`. The `return`
key of the Python dict is the field `ret`. -/
structure PortfolioStats where
  ret : ℚ
  risk : ℝ
  variance : ℚ
  sharpe_ratio : ℝ

/-- src/data.py `get_portfolio_statistics`: realized value `w·v`, variance
`wᵀΣw`, risk `√(wᵀΣw)`, and the Sharpe ratio guarded by `risk > 0`. -/
noncomputable def get_portfolio_statistics (n : ℕ)
    (weights expected_revenue : Fin n → ℚ)
    (cov_matrix : Matrix (Fin n) (Fin n) ℚ) : PortfolioStats :=
  let portfolio_return := weights ⬝ᵥ expected_revenue
  let portfolio_variance := weights ⬝ᵥ cov_matrix.mulVec weights
  let portfolio_risk : ℝ := Real.sqrt (portfolio_variance : ℝ)
  { ret := portfolio_return
    risk := portfolio_risk
    variance := portfolio_variance
    sharpe_ratio :=
      if 0 < portfolio_risk then (portfolio_return : ℝ) / portfolio_risk
      else 0 }

open Classical in
/-- src/data.py `compute_risk_contribution`: `w_i · (Σw)_i / √(wᵀΣw)` when
the risk is positive, the zero vector otherwise. -/
noncomputable def compute_risk_contribution (n : ℕ) (weights : Fin n → ℚ)
    (cov_matrix : Matrix (Fin n) (Fin n) ℚ) : Fin n → ℝ :=
  let portfolio_risk : ℝ :=
    Real.sqrt ((weights ⬝ᵥ cov_matrix.mulVec weights : ℚ) : ℝ)
  let marginal := cov_matrix.mulVec weights
  if 0 < portfolio_risk then
    fun i => (weights i : ℝ) * (marginal i : ℝ) / portfolio_risk
  else
    fun _ => 0

/-!
### src/optimizer_scipy.py

`scipy.optimize.minimize` is external to the repository; it is modelled as a
parameter of type `Solver n`, a function from the optimization problem the
repository builds (objective, equality and inequality constraint functions,
bounds, initial guess, iteration budget) to the solver output record
(`x`, `success`, `message`, `fun`). `optimize_portfolio` builds the problem
exactly as the source does, invokes the solver once, and post-processes.
-/

/-- The problem record handed to `scipy.optimize.minimize` by
src/optimizer_scipy.py: objective, the two constraint residual functions,
per-coordinate bounds, initial guess, and the iteration cap. -/
structure Problem (n : ℕ) where
  objective : (Fin n → ℚ) → ℚ
  eqCon : (Fin n → ℚ) → ℚ
  ineqCon : (Fin n → ℚ) → ℚ
  bounds : Fin n → ℚ × ℚ
  x0 : Fin n → ℚ
  maxiter : ℕ

/-- The fields of the scipy `OptimizeResult` that src/optimizer_scipy.py
reads: `result.x`, `result.success`, `result.message`, `result.fun`. -/
structure SolverResult (n : ℕ) where
  x : Fin n → ℚ
  success : Bool
  message : String
  fun_ : ℚ

/-- An external numerical solver (model of `scipy.optimize.minimize`). -/
def Solver (n : ℕ) : Type := Problem n → SolverResult n

/-- The `result_dict` returned by `optimize_portfolio`. -/
structure ResultDict where
  success : Bool
  message : String
  portfolio_return : Option ℚ
  portfolio_risk : Option ℝ
  objective_value : ℚ

/-- The problem `optimize_portfolio` assembles before calling the solver:
objective `wᵀΣw`; equality constraint `Σw − 1`; inequality constraint
`w·v − target`; identical bounds `(min_weight, max_weight)` per coordinate;
uniform initial guess `1/n`; `maxiter = 1000`. -/
def mkProblem (n : ℕ) (expected_returns : Fin n → ℚ)
    (cov_matrix : Matrix (Fin n) (Fin n) ℚ) (target_return : ℚ)
    (min_weight max_weight : ℚ) : Problem n :=
  { objective := fun w => w ⬝ᵥ cov_matrix.mulVec w
    eqCon := fun w => (∑ i, w i) - 1
    ineqCon := fun w => w ⬝ᵥ expected_returns - target_return
    bounds := fun _ => (min_weight, max_weight)
    x0 := fun _ => 1 / n
    maxiter := 1000 }

/-- src/optimizer_scipy.py `optimize_portfolio`: builds the problem, invokes
the solver once, and returns `(result.x, result_dict)`. On success the dict
carries realized value `x·v` and realized risk `√(xᵀΣx)`; on failure both
are `None`; `objective_value` is always `result.fun`. There is no
feasibility pre-check and no exception path. -/
noncomputable def optimize_portfolio (n : ℕ) (solver : Solver n)
    (expected_returns : Fin n → ℚ) (cov_matrix : Matrix (Fin n) (Fin n) ℚ)
    (target_return : ℚ) (min_weight max_weight : ℚ) :
    (Fin n → ℚ) × ResultDict :=
  let result :=
    solver (mkProblem n expected_returns cov_matrix target_return
      min_weight max_weight)
  let portfolio_return : Option ℚ :=
    if result.success then some (result.x ⬝ᵥ expected_returns) else none
  let portfolio_risk : Option ℝ :=
    if result.success then
      some (Real.sqrt ((result.x ⬝ᵥ cov_matrix.mulVec result.x : ℚ) : ℝ))
    else none
  (result.x,
    { success := result.success
      message := result.message
      portfolio_return := portfolio_return
      portfolio_risk := portfolio_risk
      objective_value := result.fun_ })

/-- np.linspace over ℚ: `num` points from `a` to `b`, endpoint included
(for `num = 1` numpy returns `[a]`, which the formula also yields since
division by zero is zero in ℚ). -/
def linspace (a b : ℚ) (num : ℕ) : List ℚ :=
  (List.range num).map fun (k : ℕ) =>
    a + (k : ℚ) * (b - a) / ((num - 1 : ℕ) : ℚ)

/-- numpy `.min()` of a nonempty vector. -/
def arrMin (n : ℕ) (hn : 0 < n) (v : Fin n → ℚ) : ℚ :=
  Finset.univ.inf' ⟨⟨0, hn⟩, Finset.mem_univ _⟩ v

/-- numpy `.max()` of a nonempty vector. -/
def arrMax (n : ℕ) (hn : 0 < n) (v : Fin n → ℚ) : ℚ :=
  Finset.univ.sup' ⟨⟨0, hn⟩, Finset.mem_univ _⟩ v

/-- One entry of the frontier list: the dict
`{return, risk, weights}` appended for a successful target. -/
structure FrontierPoint (n : ℕ) where
  ret : Option ℚ
  risk : Option ℝ
  weights : Fin n → ℚ

/-- src/optimizer_scipy.py `generate_efficient_frontier`: sweeps
`np.linspace(v.min(), v.max(), n_points)` in order, calls
`optimize_portfolio` once per target, and appends a point only when the
result's success flag is true. -/
noncomputable def generate_efficient_frontier (n : ℕ) (hn : 0 < n)
    (solver : Solver n) (expected_returns : Fin n → ℚ)
    (cov_matrix : Matrix (Fin n) (Fin n) ℚ) (n_points : ℕ)
    (min_weight max_weight : ℚ) : List (FrontierPoint n) :=
  let min_ret := arrMin n hn expected_returns
  let max_ret := arrMax n hn expected_returns
  let target_returns := linspace min_ret max_ret n_points
  target_returns.filterMap fun tr =>
    let wr := optimize_portfolio n solver expected_returns cov_matrix tr
      min_weight max_weight
    if wr.2.success then
      some { ret := wr.2.portfolio_return
             risk := wr.2.portfolio_risk
             weights := wr.1 }
    else none

/-!
### Concrete solver models

Instances of the external-solver interface used to exercise the
repository code on concrete inputs.
-/

/-- A solver model that gives up at the initial guess: it reports failure,
returning `x0` and the objective evaluated there. -/
def stubSolverFail (n : ℕ) : Solver n := fun prob =>
  { x := prob.x0
    success := false
    message := "Iteration limit reached"
    fun_ := prob.objective prob.x0 }

/-- A solver model that returns the zero vector and reports success. -/
def stubSolverZero (n : ℕ) : Solver n := fun prob =>
  { x := fun _ => 0
    success := true
    message := "Optimization terminated successfully"
    fun_ := prob.objective fun _ => 0 }

/-- A solver model on two coordinates returning the point `(1/2, 1/2)`,
reporting success exactly when that point respects the bounds and leaves
an equality-constraint residual of at most `1e-6` — a solver that only
claims success on a feasible point, as SLSQP is trusted to do. -/
def stubSolverHalf : Solver 2 := fun prob =>
  { x := fun _ => 1 / 2
    success :=
      decide ((∀ i, (prob.bounds i).1 ≤ (1 : ℚ) / 2 ∧
          (1 : ℚ) / 2 ≤ (prob.bounds i).2) ∧
        |prob.eqCon fun _ => (1 : ℚ) / 2| ≤ 1 / 1000000)
    message := "Optimization terminated successfully"
    fun_ := prob.objective fun _ => 1 / 2 }

/-!
### src/optimizer.py (discrete allocator)

The Gurobi model and its solve are external; the data layer module
`data.job_data_layer` it imports is part of the repository but absent from
the sources, so its expected-value computation is modelled from the spec.
What is embedded from the source is the results section: given the solve
status and the binary solution, it accumulates the selected jobs, the total
of their base interview probabilities, and the time used, and builds the
summary record.
-/

/-- Modelled from the spec: `compute_expected_interview_value` from the
missing module `data.job_data_layer`. Per the spec, the discrete
expected-value vector is `probability × salary_scale`. -/
def compute_expected_interview_value (n : ℕ)
    (base_prob salary_scale : Fin n → ℚ) : Fin n → ℚ :=
  fun i => base_prob i * salary_scale i

/-- Python `round(x, k)` over ℚ. Python rounds ties to even; this model
rounds ties up. No theorem below evaluates it at a tie, so the two agree
on every input used here. -/
def pyRound (k : ℕ) (x : ℚ) : ℚ := (round (x * 10 ^ k) : ℤ) / 10 ^ k

/-- The `summary` dict returned by `optimize_opt_interview_plan`. -/
structure DiscreteSummary where
  jobs_considered : ℕ
  jobs_selected : ℕ
  weekly_hours_budget : ℚ
  time_used_hours : ℚ
  expected_interviews : ℚ

/-- The set of units the solved binary program selects: those `i` with
`apply[i].X > 0.5`, when the model status is OPTIMAL; empty otherwise. -/
def selectedSet (n : ℕ) (optimal : Bool) (apply_ : Fin n → Bool) :
    Finset (Fin n) :=
  if optimal then Finset.univ.filter fun i => apply_ i = true else ∅

/-- Results section of src/optimizer.py `optimize_opt_interview_plan`
(lines 112–144): when the status is OPTIMAL, each selected unit adds its
`base_prob[i]` to `total_expected_interviews` and `time_per_application`
to `total_time_used`; the summary reports the unit count, the selected
count, the budget, and the two rounded totals. -/
def optimize_opt_interview_plan_summary (n : ℕ) (optimal : Bool)
    (apply_ : Fin n → Bool) (base_prob : Fin n → ℚ)
    (time_per_application weekly_hours : ℚ) : DiscreteSummary :=
  let sel := selectedSet n optimal apply_
  { jobs_considered := n
    jobs_selected := sel.card
    weekly_hours_budget := weekly_hours
    time_used_hours := pyRound 2 (sel.card * time_per_application)
    expected_interviews := pyRound 3 (∑ i ∈ sel, base_prob i) }

/-!
### Theorems
-/

/-- Claim C5: for every unit record, the Metrics Builder computes the
expected value as `price × (365 − availability)` and the risk proxy as
`availability / 365`, as pure per-row transforms. -/
theorem metrics_builder_per_row (n : ℕ) (price availability : Fin n → ℚ)
    (i : Fin n) :
    compute_expected_revenue n price availability i =
      price i * (365 - availability i) ∧
    compute_revenue_risk n availability i = availability i / 365 :=
  ⟨rfl, rfl⟩

/-- Claim C4: for equal-length value and risk vectors with positive value
mean, the Risk Model returns a square diagonal matrix with diagonal entry
`((value_i / mean value) * risk_i)^2`, zero off-diagonal entries, and the
matrix is symmetric positive-semidefinite. -/
theorem compute_covariance_matrix_diagonal_psd (n : ℕ)
    (value risk : Fin n → ℚ) (hmean : 0 < mean n value) :
    (∀ i, compute_covariance_matrix n value risk i i =
        ((value i / mean n value) * risk i) ^ 2) ∧
    (∀ i j, i ≠ j → compute_covariance_matrix n value risk i j = 0) ∧
    (compute_covariance_matrix n value risk)ᵀ =
      compute_covariance_matrix n value risk ∧
    (∀ w : Fin n → ℚ,
      0 ≤ w ⬝ᵥ (compute_covariance_matrix n value risk).mulVec w) := by
  refine ⟨fun i => ?_, fun i j hij => ?_, ?_, fun w => ?_⟩
  · simp [compute_covariance_matrix]
  · exact Matrix.diagonal_apply_ne _ hij
  · exact Matrix.diagonal_transpose _
  · simp only [compute_covariance_matrix, dotProduct, Matrix.mulVec_diagonal]
    refine Finset.sum_nonneg fun i _ => ?_
    have h : w i * (((value i / mean n value) * risk i) ^ 2 * w i) =
        (((value i / mean n value) * risk i) * w i) ^ 2 := by ring
    rw [h]
    exact sq_nonneg _

/-- Witness for claim C4 at `value = ![1, 3]` (mean `2`), `risk = ![1, 1]`. -/
theorem compute_covariance_matrix_diagonal_psd_witness :
    (0 : ℚ) < mean 2 ![1, 3] ∧
    ((∀ i, compute_covariance_matrix 2 ![1, 3] ![1, 1] i i =
        ((![1, 3] i / mean 2 ![1, 3]) * ![1, 1] i) ^ 2) ∧
    (∀ i j, i ≠ j → compute_covariance_matrix 2 ![1, 3] ![1, 1] i j = 0) ∧
    (compute_covariance_matrix 2 ![1, 3] ![1, 1])ᵀ =
      compute_covariance_matrix 2 ![1, 3] ![1, 1] ∧
    (∀ w : Fin 2 → ℚ,
      0 ≤ w ⬝ᵥ (compute_covariance_matrix 2 ![1, 3] ![1, 1]).mulVec w)) :=
  ⟨by norm_num [mean, Fin.sum_univ_two],
    compute_covariance_matrix_diagonal_psd 2 ![1, 3] ![1, 1]
      (by norm_num [mean, Fin.sum_univ_two])⟩

/-- Claim C6: the Risk Model is scale-invariant in the value vector — for
every positive constant `c`, scaling the values by `c` leaves the
covariance matrix unchanged, because the numerator and the mean scale
together. -/
theorem compute_covariance_matrix_scale_invariant (n : ℕ)
    (value risk : Fin n → ℚ) (c : ℚ) (hc : 0 < c)
    (hmean : 0 < mean n value) :
    compute_covariance_matrix n (fun i => c * value i) risk =
      compute_covariance_matrix n value risk := by
  have hm : mean n (fun i => c * value i) = c * mean n value := by
    unfold mean
    rw [← Finset.mul_sum, mul_div_assoc]
  unfold compute_covariance_matrix
  refine congrArg Matrix.diagonal (funext fun i => ?_)
  rw [hm]
  show ((c * value i) / (c * mean n value) * risk i) ^ 2 =
    ((value i / mean n value) * risk i) ^ 2
  rw [mul_div_mul_left (value i) (mean n value) (ne_of_gt hc)]

/-- Witness for claim C6 at `c = 2`, `value = ![1, 3]`, `risk = ![1, 1]`. -/
theorem compute_covariance_matrix_scale_invariant_witness :
    compute_covariance_matrix 2 (fun i => 2 * ![1, 3] i) ![1, 1] =
      compute_covariance_matrix 2 ![1, 3] ![1, 1] :=
  compute_covariance_matrix_scale_invariant 2 ![1, 3] ![1, 1] 2
    (by norm_num) (by norm_num [mean, Fin.sum_univ_two])

/-- Counterexample to claim C1: at the value vector `![-2, -4]` (mean
`-3 < 0`) and risk vector `![1, 1]`, `compute_covariance_matrix` does not
fail: it returns the diagonal matrix `diag(4/9, 16/9)` built from the
scaling `value_i / mean(value)`. -/
theorem compute_covariance_matrix_no_guard_counterexample :
    mean 2 ![(-2 : ℚ), -4] < 0 ∧
    compute_covariance_matrix 2 ![(-2 : ℚ), -4] ![1, 1] =
      Matrix.diagonal ![4 / 9, 16 / 9] := by
  constructor
  · norm_num [mean, Fin.sum_univ_two]
  · ext i j
    fin_cases i <;> fin_cases j <;>
      norm_num [compute_covariance_matrix, Matrix.diagonal, mean,
        Fin.sum_univ_two]

/-- Claim C1 as amended: the Risk Model has no guard on the mean — for a
value vector whose mean is strictly negative it still returns the diagonal
matrix `diag(((value_i / mean value) * risk_i)^2)`, all of whose entries
are nonnegative. -/
theorem compute_covariance_matrix_no_guard (n : ℕ)
    (value risk : Fin n → ℚ) (hmean : mean n value < 0) :
    compute_covariance_matrix n value risk =
      Matrix.diagonal
        (fun i => ((value i / mean n value) * risk i) ^ 2) ∧
    ∀ i j, 0 ≤ compute_covariance_matrix n value risk i j := by
  refine ⟨rfl, fun i j => ?_⟩
  by_cases h : i = j
  · subst h
    simp [compute_covariance_matrix]
    exact sq_nonneg _
  · rw [compute_covariance_matrix, Matrix.diagonal_apply_ne _ h]

/-- Witness for the amended claim C1 at `value = ![-2, -4]` (mean `-3`). -/
theorem compute_covariance_matrix_no_guard_witness :
    compute_covariance_matrix 2 ![(-2 : ℚ), -4] ![1, 1] =
      Matrix.diagonal
        (fun i => ((![(-2 : ℚ), -4] i / mean 2 ![(-2 : ℚ), -4]) *
          ![1, 1] i) ^ 2) ∧
    ∀ i j, 0 ≤ compute_covariance_matrix 2 ![(-2 : ℚ), -4] ![1, 1] i j :=
  compute_covariance_matrix_no_guard 2 ![(-2 : ℚ), -4] ![1, 1]
    (by norm_num [mean, Fin.sum_univ_two])

/-- Claim C10: when the solver reports failure, `optimize_portfolio` still
returns the solver's final weight vector (no exception, no empty
allocation), and the result record has `success = false`, realized value
and realized risk `None`, while `objective_value` still carries the
solver's final objective. -/
theorem optimize_portfolio_failure_passthrough (n : ℕ) (solver : Solver n)
    (v : Fin n → ℚ) (cov : Matrix (Fin n) (Fin n) ℚ) (T lo hi : ℚ)
    (hfail : (solver (mkProblem n v cov T lo hi)).success = false) :
    optimize_portfolio n solver v cov T lo hi =
      ((solver (mkProblem n v cov T lo hi)).x,
        { success := false
          message := (solver (mkProblem n v cov T lo hi)).message
          portfolio_return := none
          portfolio_risk := none
          objective_value := (solver (mkProblem n v cov T lo hi)).fun_ }) := by
  unfold optimize_portfolio
  simp [hfail]

/-- Witness for claim C10 with the failing solver model at `n = 2`. -/
theorem optimize_portfolio_failure_passthrough_witness :
    optimize_portfolio 2 (stubSolverFail 2) ![1, 2] 1 5 0 1 =
      ((stubSolverFail 2 (mkProblem 2 ![1, 2] 1 5 0 1)).x,
        { success := false
          message := (stubSolverFail 2 (mkProblem 2 ![1, 2] 1 5 0 1)).message
          portfolio_return := none
          portfolio_risk := none
          objective_value :=
            (stubSolverFail 2 (mkProblem 2 ![1, 2] 1 5 0 1)).fun_ }) :=
  optimize_portfolio_failure_passthrough 2 (stubSolverFail 2) ![1, 2] 1 5 0 1
    rfl

/-- Counterexample to claim C2: with `n = 3` units and per-unit upper
bound `hi = 1/5` (so `hi · n = 3/5 < 1`), `optimize_portfolio` does not
fail fast with a ConstraintError before the solve: its output is whatever
the invoked solver produces — a success record under one solver model, and
under another the solver's failure record whose weights are the uniform
initial guess. -/
theorem optimize_portfolio_no_precheck_counterexample :
    ((1 : ℚ) / 5) * ((3 : ℕ) : ℚ) < 1 ∧
    (optimize_portfolio 3 (stubSolverZero 3) ![1, 2, 3] 1 0 0
      (1 / 5)).2.success = true ∧
    (optimize_portfolio 3 (stubSolverFail 3) ![1, 2, 3] 1 0 0
      (1 / 5)).2.success = false ∧
    (optimize_portfolio 3 (stubSolverFail 3) ![1, 2, 3] 1 0 0 (1 / 5)).1 =
      fun _ => (1 : ℚ) / ((3 : ℕ) : ℚ) :=
  ⟨by norm_num, rfl, rfl, rfl⟩

/-- Claim C2 as amended: the continuous allocator performs no bounds
feasibility pre-check and has no ConstraintError; even when `hi · n < 1`
it builds the problem, invokes the numerical solver, and returns the
solver's final iterate together with the solver's own success flag and
diagnostic message, so the infeasibility surfaces only as solver
failure. -/
theorem optimize_portfolio_invokes_solver_when_infeasible (n : ℕ)
    (solver : Solver n) (v : Fin n → ℚ)
    (cov : Matrix (Fin n) (Fin n) ℚ) (T lo hi : ℚ)
    (hinf : hi * (n : ℚ) < 1) :
    (optimize_portfolio n solver v cov T lo hi).1 =
      (solver (mkProblem n v cov T lo hi)).x ∧
    (optimize_portfolio n solver v cov T lo hi).2.success =
      (solver (mkProblem n v cov T lo hi)).success ∧
    (optimize_portfolio n solver v cov T lo hi).2.message =
      (solver (mkProblem n v cov T lo hi)).message :=
  ⟨rfl, rfl, rfl⟩

/-- Witness for the amended claim C2 at `n = 3`, `hi = 1/5`. -/
theorem optimize_portfolio_invokes_solver_when_infeasible_witness :
    (optimize_portfolio 3 (stubSolverFail 3) ![1, 2, 3] 1 0 0 (1 / 5)).1 =
      (stubSolverFail 3 (mkProblem 3 ![1, 2, 3] 1 0 0 (1 / 5))).x ∧
    (optimize_portfolio 3 (stubSolverFail 3) ![1, 2, 3] 1 0 0
      (1 / 5)).2.success =
      (stubSolverFail 3 (mkProblem 3 ![1, 2, 3] 1 0 0 (1 / 5))).success ∧
    (optimize_portfolio 3 (stubSolverFail 3) ![1, 2, 3] 1 0 0
      (1 / 5)).2.message =
      (stubSolverFail 3 (mkProblem 3 ![1, 2, 3] 1 0 0 (1 / 5))).message :=
  optimize_portfolio_invokes_solver_when_infeasible 3 (stubSolverFail 3)
    ![1, 2, 3] 1 0 0 (1 / 5) (by norm_num)

/-- Claim C9: whenever the continuous allocator returns `success = true`
and the external solver only claims success on iterates that respect the
problem's bounds and leave an equality-constraint residual of at most
`1e-6` (the contract trusted of SLSQP), the returned weights all lie in
`[min_weight, max_weight]` and sum to 1 within `1e-6`. -/
theorem optimize_portfolio_success_weights (n : ℕ) (solver : Solver n)
    (v : Fin n → ℚ) (cov : Matrix (Fin n) (Fin n) ℚ) (T lo hi : ℚ)
    (hsolver : ∀ prob : Problem n, (solver prob).success = true →
      (∀ i, (prob.bounds i).1 ≤ (solver prob).x i ∧
        (solver prob).x i ≤ (prob.bounds i).2) ∧
      |prob.eqCon (solver prob).x| ≤ 1 / 1000000)
    (hsucc : (optimize_portfolio n solver v cov T lo hi).2.success = true) :
    (∀ i, lo ≤ (optimize_portfolio n solver v cov T lo hi).1 i ∧
      (optimize_portfolio n solver v cov T lo hi).1 i ≤ hi) ∧
    |(∑ i, (optimize_portfolio n solver v cov T lo hi).1 i) - 1| ≤
      1 / 1000000 := by
  have h := hsolver (mkProblem n v cov T lo hi) hsucc
  exact ⟨fun i => h.1 i, h.2⟩

/-- Witness for claim C9 with the feasibility-checking solver model at
`n = 2`, bounds `[0, 1]`. -/
theorem optimize_portfolio_success_weights_witness :
    (∀ i, (0 : ℚ) ≤ (optimize_portfolio 2 stubSolverHalf ![1, 2] 1 0
        0 1).1 i ∧
      (optimize_portfolio 2 stubSolverHalf ![1, 2] 1 0 0 1).1 i ≤ 1) ∧
    |(∑ i, (optimize_portfolio 2 stubSolverHalf ![1, 2] 1 0 0 1).1 i) - 1| ≤
      1 / 1000000 :=
  optimize_portfolio_success_weights 2 stubSolverHalf ![1, 2] 1 0 0 1
    (fun _ h => of_decide_eq_true h) (by with_unfolding_all rfl)

lemma linspace_length (a b : ℚ) (num : ℕ) : (linspace a b num).length = num := by
  simp [linspace]

lemma linspace_head (a b : ℚ) (num : ℕ) (h : 0 < num) :
    (linspace a b num).head? = some a := by
  obtain ⟨m, rfl⟩ : ∃ m, num = m + 1 := ⟨num - 1, by omega⟩
  simp [linspace, List.range_succ_eq_map]

lemma linspace_getLast (a b : ℚ) (num : ℕ) (h : 2 ≤ num) :
    (linspace a b num).getLast? = some b := by
  obtain ⟨m, rfl⟩ : ∃ m, num = m + 2 := ⟨num - 2, by omega⟩
  rw [linspace, List.range_succ, List.map_append, List.map_singleton,
    List.getLast?_concat]
  have hne : (((m + 1 : ℕ)) : ℚ) ≠ 0 := by
    exact_mod_cast Nat.succ_ne_zero m
  have hsub : (m + 2 - 1 : ℕ) = m + 1 := by omega
  rw [hsub, mul_div_cancel_left₀ (b - a) hne, add_sub_cancel]

lemma linspace_chain_spacing (a b : ℚ) (num : ℕ) :
    (linspace a b num).Chain'
      (fun x y => y - x = (b - a) / ((num - 1 : ℕ) : ℚ)) := by
  rw [linspace, List.chain'_map]
  cases num with
  | zero => simp
  | succ m =>
    rw [List.chain'_range_succ]
    intro k hk
    show (a + (((k + 1 : ℕ)) : ℚ) * (b - a) / ((m + 1 - 1 : ℕ) : ℚ)) -
      (a + (k : ℚ) * (b - a) / ((m + 1 - 1 : ℕ) : ℚ)) =
      (b - a) / ((m + 1 - 1 : ℕ) : ℚ)
    rw [add_sub_add_left_eq_sub, ← sub_div]
    congr 1
    push_cast
    ring

lemma linspace_chain_le (a b : ℚ) (num : ℕ) (hab : a ≤ b) :
    (linspace a b num).Chain' (· ≤ ·) := by
  refine (linspace_chain_spacing a b num).imp ?_
  intro x y h
  have hd : 0 ≤ (b - a) / ((num - 1 : ℕ) : ℚ) :=
    div_nonneg (by linarith) (Nat.cast_nonneg _)
  linarith

lemma arrMin_le_arrMax (n : ℕ) (hn : 0 < n) (v : Fin n → ℚ) :
    arrMin n hn v ≤ arrMax n hn v :=
  le_trans (Finset.inf'_le (f := v) (Finset.mem_univ ⟨0, hn⟩))
    (Finset.le_sup' (f := v) (Finset.mem_univ ⟨0, hn⟩))

lemma filterMap_ifThenElse {α β : Type _} (l : List α) (p : α → Bool)
    (f : α → β) :
    (l.filterMap fun a => if p a then some (f a) else none) =
      (l.filter p).map f := by
  induction l with
  | nil => rfl
  | cons x xs ih =>
    by_cases h : p x <;>
      simp [List.filterMap_cons, List.filter_cons, h, ih]

/-- Claim C7 as amended: for every point count `N ≥ 2` the Frontier
Generator sweeps exactly `N` equally spaced value-floor targets from
`min(v)` to `max(v)` inclusive, in non-decreasing order, invoking the
continuous allocator once per target; the output keeps, in target order,
exactly the points whose allocator result has `success = true` (failed
targets are silently dropped). For `N = 1` numpy's linspace yields the
single target `min(v)`, so `max(v)` is not swept. -/
theorem generate_efficient_frontier_spec (n : ℕ) (hn : 0 < n)
    (solver : Solver n) (v : Fin n → ℚ) (cov : Matrix (Fin n) (Fin n) ℚ)
    (n_points : ℕ) (lo hi : ℚ) (hN : 2 ≤ n_points) :
    (linspace (arrMin n hn v) (arrMax n hn v) n_points).length = n_points ∧
    (linspace (arrMin n hn v) (arrMax n hn v) n_points).head? =
      some (arrMin n hn v) ∧
    (linspace (arrMin n hn v) (arrMax n hn v) n_points).getLast? =
      some (arrMax n hn v) ∧
    (linspace (arrMin n hn v) (arrMax n hn v) n_points).Chain'
      (fun x y => y - x =
        (arrMax n hn v - arrMin n hn v) / ((n_points - 1 : ℕ) : ℚ)) ∧
    (linspace (arrMin n hn v) (arrMax n hn v) n_points).Chain' (· ≤ ·) ∧
    generate_efficient_frontier n hn solver v cov n_points lo hi =
      ((linspace (arrMin n hn v) (arrMax n hn v) n_points).filter fun tr =>
        (optimize_portfolio n solver v cov tr lo hi).2.success).map
        fun tr =>
          { ret :=
              (optimize_portfolio n solver v cov tr lo hi).2.portfolio_return
            risk :=
              (optimize_portfolio n solver v cov tr lo hi).2.portfolio_risk
            weights := (optimize_portfolio n solver v cov tr lo hi).1 } := by
  refine ⟨linspace_length _ _ _, linspace_head _ _ _ (by omega),
    linspace_getLast _ _ _ hN, linspace_chain_spacing _ _ _,
    linspace_chain_le _ _ _ (arrMin_le_arrMax n hn v), ?_⟩
  unfold generate_efficient_frontier
  exact filterMap_ifThenElse _ _ _

/-- Witness for the amended claim C7 at `v = ![0, 1]`, `N = 3`. -/
theorem generate_efficient_frontier_spec_witness :
    (linspace (arrMin 2 (Nat.succ_pos 1) ![(0 : ℚ), 1])
      (arrMax 2 (Nat.succ_pos 1) ![(0 : ℚ), 1]) 3).length = 3 ∧
    (linspace (arrMin 2 (Nat.succ_pos 1) ![(0 : ℚ), 1])
      (arrMax 2 (Nat.succ_pos 1) ![(0 : ℚ), 1]) 3).head? =
      some (arrMin 2 (Nat.succ_pos 1) ![(0 : ℚ), 1]) ∧
    (linspace (arrMin 2 (Nat.succ_pos 1) ![(0 : ℚ), 1])
      (arrMax 2 (Nat.succ_pos 1) ![(0 : ℚ), 1]) 3).getLast? =
      some (arrMax 2 (Nat.succ_pos 1) ![(0 : ℚ), 1]) ∧
    (linspace (arrMin 2 (Nat.succ_pos 1) ![(0 : ℚ), 1])
      (arrMax 2 (Nat.succ_pos 1) ![(0 : ℚ), 1]) 3).Chain'
      (fun x y => y - x =
        (arrMax 2 (Nat.succ_pos 1) ![(0 : ℚ), 1] -
          arrMin 2 (Nat.succ_pos 1) ![(0 : ℚ), 1]) / ((3 - 1 : ℕ) : ℚ)) ∧
    (linspace (arrMin 2 (Nat.succ_pos 1) ![(0 : ℚ), 1])
      (arrMax 2 (Nat.succ_pos 1) ![(0 : ℚ), 1]) 3).Chain' (· ≤ ·) ∧
    generate_efficient_frontier 2 (Nat.succ_pos 1) (stubSolverZero 2)
      ![(0 : ℚ), 1] 1 3 0 1 =
      ((linspace (arrMin 2 (Nat.succ_pos 1) ![(0 : ℚ), 1])
        (arrMax 2 (Nat.succ_pos 1) ![(0 : ℚ), 1]) 3).filter fun tr =>
        (optimize_portfolio 2 (stubSolverZero 2) ![(0 : ℚ), 1] 1 tr
          0 1).2.success).map
        fun tr =>
          { ret := (optimize_portfolio 2 (stubSolverZero 2) ![(0 : ℚ), 1] 1
              tr 0 1).2.portfolio_return
            risk := (optimize_portfolio 2 (stubSolverZero 2) ![(0 : ℚ), 1] 1
              tr 0 1).2.portfolio_risk
            weights := (optimize_portfolio 2 (stubSolverZero 2) ![(0 : ℚ), 1]
              1 tr 0 1).1 } :=
  generate_efficient_frontier_spec 2 (Nat.succ_pos 1) (stubSolverZero 2)
    ![(0 : ℚ), 1] 1 3 0 1 (by norm_num)

/-- Counterexample to claim C7: at point count `N = 1` with value vector
`![0, 1]`, the sweep list is the single target `min(v) = 0`; the claimed
inclusive endpoint `max(v) = 1` is never evaluated, so the sweep is not
"from min(v) to max(v) inclusive" for every `N`. -/
theorem generate_efficient_frontier_single_target_counterexample :
    arrMin 2 (Nat.succ_pos 1) ![(0 : ℚ), 1] = 0 ∧
    arrMax 2 (Nat.succ_pos 1) ![(0 : ℚ), 1] = 1 ∧
    linspace 0 1 1 = [0] ∧
    (1 : ℚ) ∉ linspace 0 1 1 ∧
    (generate_efficient_frontier 2 (Nat.succ_pos 1) (stubSolverZero 2)
      ![(0 : ℚ), 1] 1 1 0 1).length = 1 := by
  have h : linspace 0 1 1 = [0] := by simp [linspace]
  refine ⟨by with_unfolding_all rfl, by with_unfolding_all rfl, h, ?_, ?_⟩
  · rw [h]
    decide
  · rfl

/-- Counterexample to claim C3: one job with base interview probability
`1/2` and salary scale `2` (per-unit expected value `e = 1`), selected by
the solve. The summary's realized total is `1/2` — the sum of base
probabilities over the selection — while the sum of the per-unit expected
values `e_i` the binary program maximizes is `1`. -/
theorem discrete_summary_value_counterexample :
    (optimize_opt_interview_plan_summary 1 true (fun _ => true)
      ![(1 : ℚ) / 2] 1 12).expected_interviews = 1 / 2 ∧
    (∑ i ∈ selectedSet 1 true fun _ => true,
      compute_expected_interview_value 1 ![(1 : ℚ) / 2] ![2] i) = 1 ∧
    (1 : ℚ) / 2 ≠ 1 := by
  refine ⟨?_, ?_, by norm_num⟩
  · with_unfolding_all rfl
  · with_unfolding_all rfl

/-- Claim C3 as amended: the discrete allocator's summary reports, over
the selected subset `S`, the (3-decimal rounded) total of the base
interview probabilities — not the per-unit expected value
`probability × salary scale` that the binary program maximizes — while
the reported resource used is the (2-decimal rounded) total of the
per-unit time costs over `S`, and the counts are the units considered and
selected. -/
theorem optimize_opt_interview_plan_summary_totals (n : ℕ) (optimal : Bool)
    (apply_ : Fin n → Bool) (base_prob : Fin n → ℚ)
    (time_per_application weekly_hours : ℚ) :
    (optimize_opt_interview_plan_summary n optimal apply_ base_prob
      time_per_application weekly_hours).expected_interviews =
      pyRound 3 (∑ i ∈ selectedSet n optimal apply_, base_prob i) ∧
    (optimize_opt_interview_plan_summary n optimal apply_ base_prob
      time_per_application weekly_hours).time_used_hours =
      pyRound 2
        ((selectedSet n optimal apply_).sum fun _ => time_per_application) ∧
    (optimize_opt_interview_plan_summary n optimal apply_ base_prob
      time_per_application weekly_hours).jobs_considered = n ∧
    (optimize_opt_interview_plan_summary n optimal apply_ base_prob
      time_per_application weekly_hours).jobs_selected =
      (selectedSet n optimal apply_).card := by
  refine ⟨rfl, ?_, rfl, rfl⟩
  show pyRound 2 (((selectedSet n optimal apply_).card : ℚ) *
      time_per_application) = _
  rw [Finset.sum_const, nsmul_eq_mul]

/-- Claim C8: Portfolio Analytics computes realized value `w·v`, realized
risk `√(wᵀΣw)`, and a marginal risk contribution whose entry `i` is
`w_i · (Σw)_i / risk` when the realized risk is positive and which is the
zero vector when it is zero; all are pure projections of their inputs. -/
theorem portfolio_analytics_spec (n : ℕ)
    (weights expected_revenue : Fin n → ℚ)
    (cov_matrix : Matrix (Fin n) (Fin n) ℚ) :
    (get_portfolio_statistics n weights expected_revenue cov_matrix).ret =
      weights ⬝ᵥ expected_revenue ∧
    (get_portfolio_statistics n weights expected_revenue cov_matrix).risk =
      Real.sqrt ((weights ⬝ᵥ cov_matrix.mulVec weights : ℚ) : ℝ) ∧
    (0 < Real.sqrt ((weights ⬝ᵥ cov_matrix.mulVec weights : ℚ) : ℝ) →
      ∀ i, compute_risk_contribution n weights cov_matrix i =
        (weights i : ℝ) * ((cov_matrix.mulVec weights i : ℚ) : ℝ) /
          Real.sqrt ((weights ⬝ᵥ cov_matrix.mulVec weights : ℚ) : ℝ)) ∧
    (Real.sqrt ((weights ⬝ᵥ cov_matrix.mulVec weights : ℚ) : ℝ) = 0 →
      compute_risk_contribution n weights cov_matrix = fun _ => 0) := by
  refine ⟨rfl, rfl, fun hpos i => ?_, fun hzero => ?_⟩
  · simp only [compute_risk_contribution]
    rw [if_pos hpos]
  · simp only [compute_risk_contribution]
    rw [if_neg fun hlt => absurd hzero (ne_of_gt hlt)]

/-- Witness for claim C8: at `w = ![1]`, `Σ = 1` the risk is `1 > 0` and
the contribution formula applies; at `w = ![0]` the risk is `0` and the
contribution is the zero vector. -/
theorem portfolio_analytics_spec_witness :
    compute_risk_contribution 1 ![(1 : ℚ)] 1 0 =
      ((![(1 : ℚ)] 0 : ℚ) : ℝ) *
        (((1 : Matrix (Fin 1) (Fin 1) ℚ).mulVec ![(1 : ℚ)] 0 : ℚ) : ℝ) /
        Real.sqrt ((![(1 : ℚ)] ⬝ᵥ
          (1 : Matrix (Fin 1) (Fin 1) ℚ).mulVec ![(1 : ℚ)] : ℚ) : ℝ) ∧
    compute_risk_contribution 1 ![(0 : ℚ)] 1 = fun _ => 0 := by
  constructor
  · have hv : (![(1 : ℚ)] ⬝ᵥ
        (1 : Matrix (Fin 1) (Fin 1) ℚ).mulVec ![(1 : ℚ)] : ℚ) = 1 := by
      with_unfolding_all rfl
    refine (portfolio_analytics_spec 1 ![1] ![1] 1).2.2.1 ?_ 0
    rw [hv, Rat.cast_one, Real.sqrt_one]
    exact one_pos
  · have hv : (![(0 : ℚ)] ⬝ᵥ
        (1 : Matrix (Fin 1) (Fin 1) ℚ).mulVec ![(0 : ℚ)] : ℚ) = 0 := by
      with_unfolding_all rfl
    refine (portfolio_analytics_spec 1 ![0] ![1] 1).2.2.2 ?_
    rw [hv, Rat.cast_zero, Real.sqrt_zero]

end AirbnbOpt
